import Mathlib

/-!
Verification of the `cleanup` utility scripts (photosorter.py,
organize_files.py, string_replacer.py) against their specification.

The scripts are shallowly embedded: pure fragments become Lean functions,
filesystem state is passed explicitly (a snapshot is a `List String` of
existing paths; directory creation acts on an explicit record of directories
and files), and fallible operations return `Option`/`Except`.  External
library collaborators (EXIF readers, `strptime`, `mimetypes`, UTF-8
decoding) are modelled by their documented behaviour on the inputs the
scripts feed them; each such modelling choice is noted at the definition.
-/

namespace Cleanup

/-! ### Decimal rendering of naturals

`photosorter.py` builds collision suffixes with the f-string
`f"{stem}_{counter}{ext}"`; the embedding uses Lean's `Nat.repr` for the
decimal rendering of `counter`.  The collision-loop proofs need that this
rendering is injective, which we establish via an explicit decimal decoder.
-/

/-- Decimal digit list of `n`, most significant first.  This is the
well-founded counterpart of core's fuelled `Nat.toDigitsCore`. -/
def decDigits (n : Nat) : List Char :=
  if h : n < 10 then [Nat.digitChar n]
  else decDigits (n / 10) ++ [Nat.digitChar (n % 10)]
  termination_by n
  decreasing_by
    exact Nat.div_lt_self (by omega) (by decide)

/-- Numeric value of a decimal digit character, `10` for non-digits. -/
def digitVal (c : Char) : Nat :=
  if c = '0' then 0 else
  if c = '1' then 1 else
  if c = '2' then 2 else
  if c = '3' then 3 else
  if c = '4' then 4 else
  if c = '5' then 5 else
  if c = '6' then 6 else
  if c = '7' then 7 else
  if c = '8' then 8 else
  if c = '9' then 9 else 10

theorem digitVal_digitChar {d : Nat} (h : d < 10) :
    digitVal (Nat.digitChar d) = d := by
  interval_cases d <;> rfl

theorem toDigitsCore_eq_decDigits :
    ∀ (f n : Nat) (ds : List Char), n < f →
      Nat.toDigitsCore 10 f n ds = decDigits n ++ ds := by
  intro f
  induction f with
  | zero => intro n ds h; omega
  | succ f ih =>
    intro n ds h
    by_cases h10 : n < 10
    · have hdiv : n / 10 = 0 := Nat.div_eq_of_lt h10
      simp only [Nat.toDigitsCore, hdiv, if_pos rfl]
      rw [decDigits, dif_pos h10, Nat.mod_eq_of_lt h10]
      rfl
    · have hge : 10 ≤ n := by omega
      have hdiv : n / 10 ≠ 0 := by
        have : 1 ≤ n / 10 := (Nat.one_le_div_iff (by omega)).mpr hge
        omega
      have hlt : n / 10 < f := by
        have h1 : n / 10 < n := Nat.div_lt_self (by omega) (by decide)
        omega
      simp only [Nat.toDigitsCore]
      rw [if_neg hdiv]
      rw [ih (n / 10) (Nat.digitChar (n % 10) :: ds) hlt]
      conv_rhs => rw [decDigits, dif_neg h10]
      simp

theorem repr_eq_decDigits (n : Nat) : Nat.repr n = (decDigits n).asString := by
  show (Nat.toDigits 10 n).asString = (decDigits n).asString
  rw [Nat.toDigits, toDigitsCore_eq_decDigits (n + 1) n [] (Nat.lt_succ_self n),
    List.append_nil]

theorem foldl_decDigits (n : Nat) :
    ∀ a : Nat, (decDigits n).foldl (fun acc c => acc * 10 + digitVal c) a =
      a * 10 ^ (decDigits n).length + n := by
  induction n using Nat.strong_induction_on with
  | _ n ih =>
    intro a
    by_cases h10 : n < 10
    · rw [decDigits, dif_pos h10]
      simp [digitVal_digitChar h10]
    · rw [decDigits, dif_neg h10]
      rw [List.foldl_append]
      rw [ih (n / 10) (Nat.div_lt_self (by omega) (by decide)) a]
      have hmod : n % 10 < 10 := Nat.mod_lt _ (by decide)
      simp only [List.foldl_cons, List.foldl_nil, List.length_append,
        List.length_singleton, digitVal_digitChar hmod]
      rw [pow_succ]
      have := Nat.div_add_mod n 10
      ring_nf
      omega

theorem decDigits_injective : Function.Injective decDigits := by
  intro m n h
  have hm := foldl_decDigits m 0
  have hn := foldl_decDigits n 0
  rw [h] at hm
  omega

theorem repr_injective : Function.Injective Nat.repr := by
  intro m n h
  rw [repr_eq_decDigits, repr_eq_decDigits, List.asString_inj] at h
  exact decDigits_injective h

/-! ### pathlib name splitting

`photosorter.py` uses `Path(...).name`, `.stem` and `.suffix`.  CPython's
`PurePath.suffix` computes `i = name.rfind('.')` on the final path component
and returns `name[i:]` when `0 < i < len(name) - 1`, else `''`; `.stem` is
the name with the suffix removed.  We embed exactly that computation, with
the final component taken to be the part after the last `'/'`.
-/

/-- Index of the last occurrence of `c` in `cs`, if any (Python `rfind`). -/
def lastIdxOf (c : Char) : List Char → Option Nat
  | [] => none
  | x :: xs =>
    match lastIdxOf c xs with
    | some i => some (i + 1)
    | none => if x = c then some 0 else none

/-- Final path component: the part after the last `'/'` (pathlib `.name`
for the slash-terminated-free paths the scripts produce). -/
def fileNameOf (p : String) : String :=
  match lastIdxOf '/' p.data with
  | some i => (p.data.drop (i + 1)).asString
  | none => p

/-- pathlib `PurePath.suffix` of `p`. -/
def pathSuffix (p : String) : String :=
  let name := (fileNameOf p).data
  match lastIdxOf '.' name with
  | some i => if 0 < i ∧ i < name.length - 1 then (name.drop i).asString else ""
  | none => ""

/-- pathlib `PurePath.stem` of `p`. -/
def pathStem (p : String) : String :=
  let name := (fileNameOf p).data
  match lastIdxOf '.' name with
  | some i => if 0 < i ∧ i < name.length - 1 then (name.take i).asString else name.asString
  | none => name.asString

/-! ### Dates and EXIF metadata (`photosorter.py` lines 17–75) -/

/-- A calendar date-time, as held by a Python `datetime` object. -/
structure DateTime where
  year : Nat
  month : Nat
  day : Nat
  hour : Nat
  minute : Nat
  second : Nat
deriving DecidableEq

def isLeapYear (y : Nat) : Bool :=
  (y % 4 = 0 && y % 100 ≠ 0) || y % 400 = 0

def daysInMonth (y m : Nat) : Nat :=
  if m = 2 then (if isLeapYear y then 29 else 28)
  else if m = 4 ∨ m = 6 ∨ m = 9 ∨ m = 11 then 30
  else 31

/-- Value of a decimal digit character read from an ASCII string. -/
def charDigit (c : Char) : Nat := c.toNat - 48

/-- Model of `datetime.strptime(s, "%Y:%m:%d %H:%M:%S")`: an external
library collaborator.  We model the fixed-width reading (four-digit year,
two-digit remaining fields, literal separators) together with the range
validation `datetime` performs (year ≥ 1, month 1–12, day 1–days-in-month,
hour ≤ 23, minute ≤ 59, second ≤ 59); parse failure is `none`, matching
the `ValueError` the scripts catch. -/
def parse_datetime (s : String) : Option DateTime :=
  match s.data with
  | [y1, y2, y3, y4, c1, o1, o2, c2, d1, d2, sp, h1, h2, c3, i1, i2, c4, s1, s2] =>
    if (y1.isDigit && y2.isDigit && y3.isDigit && y4.isDigit &&
        o1.isDigit && o2.isDigit && d1.isDigit && d2.isDigit &&
        h1.isDigit && h2.isDigit && i1.isDigit && i2.isDigit &&
        s1.isDigit && s2.isDigit &&
        (c1 = ':' : Bool) && (c2 = ':' : Bool) && (sp = ' ' : Bool) &&
        (c3 = ':' : Bool) && (c4 = ':' : Bool)) then
      let y := ((charDigit y1 * 10 + charDigit y2) * 10 + charDigit y3) * 10 + charDigit y4
      let mo := charDigit o1 * 10 + charDigit o2
      let d := charDigit d1 * 10 + charDigit d2
      let h := charDigit h1 * 10 + charDigit h2
      let mi := charDigit i1 * 10 + charDigit i2
      let se := charDigit s1 * 10 + charDigit s2
      if 1 ≤ y ∧ 1 ≤ mo ∧ mo ≤ 12 ∧ 1 ≤ d ∧ d ≤ daysInMonth y mo ∧
          h ≤ 23 ∧ mi ≤ 59 ∧ se ≤ 59 then
        some ⟨y, mo, d, h, mi, se⟩
      else none
    else none
  | _ => none

/-- One input file of `photosorter.py`, abstracted at the boundaries of the
external collaborators: `pil_exif` is what `PIL`'s `img._getexif()` yields
as an ordered association list of decoded tag names (`none` when opening
the image or reading EXIF raises, or `_getexif()` returns `None`);
`exifread_tags` is what `exifread.process_file` yields (`none` when opening
or processing raises); `mtime` is the filesystem modification time as the
`datetime` produced by `datetime.fromtimestamp(os.path.getmtime(...))`. -/
structure PhotoFile where
  name : String
  pil_exif : Option (List (String × String))
  exifread_tags : Option (List (String × String))
  mtime : DateTime

/-- The PIL loop of `get_exif_date` (lines 24–34): scan the EXIF items in
order; on the first item tagged `DateTimeOriginal` or `DateTime`, parse its
value and return.  A parse failure raises inside the `try`, which aborts
the whole method (it does not continue with later items); both that and a
scan that finds no date tag fall through to the exifread method, so both
are `none` here. -/
def pil_scan : List (String × String) → Option DateTime
  | [] => none
  | (tag, value) :: rest =>
    if tag = "DateTimeOriginal" then parse_datetime value
    else if tag = "DateTime" then parse_datetime value
    else pil_scan rest

/-- Python `tags['k']` on the exifread dict, as first match in an
association list (dict keys are unique, so first match is the match). -/
def lookupTag (k : String) (tags : List (String × String)) : Option String :=
  (tags.find? (fun kv => kv.1 = k)).map (fun kv => kv.2)

/-- The exifread branch of `get_exif_date` (lines 36–51): try
`'EXIF DateTimeOriginal'` first, else `'Image DateTime'`.  A parse failure
raises inside the second `try`, so the function returns `None` without
consulting the other key. -/
def exifread_scan (tags : List (String × String)) : Option DateTime :=
  match lookupTag "EXIF DateTimeOriginal" tags with
  | some v => parse_datetime v
  | none =>
    match lookupTag "Image DateTime" tags with
    | some v => parse_datetime v
    | none => none

/-- `get_exif_date` (photosorter.py lines 17–53). -/
def get_exif_date (f : PhotoFile) : Option DateTime :=
  match f.pil_exif.bind pil_scan with
  | some d => some d
  | none => f.exifread_tags.bind exifread_scan

/-- `get_file_date` (photosorter.py lines 55–61). -/
def get_file_date (f : PhotoFile) : DateTime := f.mtime

/-- `get_photo_date` (photosorter.py lines 63–75).  The returned tag
strings are exactly the ones in the source. -/
def get_photo_date (f : PhotoFile) : DateTime × String :=
  match get_exif_date f with
  | some d => (d, "EXIF")
  | none => (get_file_date f, "File Modified")

/-! ### Destination directory (`create_date_path`, photosorter.py lines 77–88)

`strftime` is an external collaborator; on the script's target platform
(glibc) `%Y` renders the year as a plain decimal number without padding,
while `%m` and `%d` zero-pad to two digits.  Path concatenation by
pathlib's `/` operator is modelled as joining with `"/"`. -/

def strftimeY (d : DateTime) : String := Nat.repr d.year

/-- Two-digit zero padding, as `%m`/`%d` produce for values below 100. -/
def zeroPad2 (n : Nat) : String :=
  if n < 10 then "0" ++ Nat.repr n else Nat.repr n

def strftimeM (d : DateTime) : String := zeroPad2 d.month

def strftimeD (d : DateTime) : String := zeroPad2 d.day

/-- The path value computed by `create_date_path`:
`Path(base_dir) / year / month / day`. -/
def date_path (base_dir : String) (d : DateTime) : String :=
  base_dir ++ "/" ++ strftimeY d ++ "/" ++ strftimeM d ++ "/" ++ strftimeD d

/-- Left padding with a fill character up to a given width. -/
def leftPad (w : Nat) (c : Char) (s : String) : String :=
  (List.replicate (w - s.length) c).asString ++ s

/-- Modelled from the spec's words (refinement target for claim C7):
"Builds `root/YYYY/MM/DD` using zero-padded two-digit month and day and
four-digit year from `date.timestamp`." -/
def spec_date_path (root : String) (d : DateTime) : String :=
  root ++ "/" ++ leftPad 4 '0' (Nat.repr d.year) ++ "/" ++
    leftPad 2 '0' (Nat.repr d.month) ++ "/" ++ leftPad 2 '0' (Nat.repr d.day)

/-! ### Filesystem effect of `create_date_path`

`date_path.mkdir(parents=True, exist_ok=True)` creates the dated directory
and any missing ancestors; an existing directory is not an error, while a
path component already occupied by a non-directory raises
(`FileExistsError`/`NotADirectoryError`), which `create_date_path` does not
catch.  The filesystem is modelled as explicit lists of existing directory
paths and existing non-directory paths; `base_dir` is treated as a single
creatable component.  Permission failures are outside the model. -/

structure FS where
  dirs : List String
  files : List String
deriving DecidableEq

/-- Create one directory with `exist_ok` semantics: error when the path is
occupied by a non-directory, no-op when the directory exists. -/
def mkdir_one (st : FS) (p : String) : Except String FS :=
  if p ∈ st.files then Except.error p
  else if p ∈ st.dirs then Except.ok st
  else Except.ok { st with dirs := p :: st.dirs }

/-- `mkdir(parents=True, exist_ok=True)` along a chain of nested paths,
outermost first. -/
def mkdir_parents (st : FS) : List String → Except String FS
  | [] => Except.ok st
  | p :: rest =>
    match mkdir_one st p with
    | Except.error e => Except.error e
    | Except.ok st2 => mkdir_parents st2 rest

/-- The chain of paths `mkdir(parents=True)` ensures for
`Path(base_dir)/year/month/day`, outermost first. -/
def date_path_chain (base_dir : String) (d : DateTime) : List String :=
  [base_dir,
   base_dir ++ "/" ++ strftimeY d,
   base_dir ++ "/" ++ strftimeY d ++ "/" ++ strftimeM d,
   date_path base_dir d]

/-- `create_date_path` (photosorter.py lines 77–88) with its filesystem
effect: ensures the dated directory chain exists and returns the new state
with the path; failures propagate to the caller uncaught. -/
def create_date_path (st : FS) (base_dir : String) (d : DateTime) :
    Except String (FS × String) :=
  match mkdir_parents st (date_path_chain base_dir d) with
  | Except.error e => Except.error e
  | Except.ok st2 => Except.ok (st2, date_path base_dir d)

/-! ### Collision resolution (photosorter.py lines 154–163; the same loop
appears as `move_file_safely` in organize_files.py lines 114–125)

```
dest_file_path = date_folder / file_path.name
counter = 1
while dest_file_path.exists():
    new_name = f"{original_name}_{counter}{extension}"
    dest_file_path = date_folder / new_name
    counter += 1
```

A snapshot of the destination directory's filesystem is a `List String` of
existing paths; `Path.exists()` is membership.  The Python loop is an
unguarded `while`; on a finite snapshot it terminates because distinct
counters yield distinct candidate names (`repr_injective`), so at most
`fs.length` probes can be occupied.  The recursion is therefore given
`fs.length + 1` fuel, and `find_free_spec`/`exists_free_probe` below prove
the fuel-exhausted branch is never reached. -/

/-- The candidate path probed at counter value `c`:
`date_folder / f"{stem}_{c}{ext}"`. -/
def probe_path (dir stem ext : String) (c : Nat) : String :=
  dir ++ "/" ++ (stem ++ "_" ++ Nat.repr c ++ ext)

def find_free (fs : List String) (dir stem ext : String) : Nat → Nat → String
  | 0, c => probe_path dir stem ext c
  | fuel + 1, c =>
    if probe_path dir stem ext c ∈ fs then
      find_free fs dir stem ext fuel (c + 1)
    else probe_path dir stem ext c

/-- The collision-resolution step: the routing decision
(destination path, whether a rename-for-collision occurred). -/
def resolve_collision (fs : List String) (dir name : String) : String × Bool :=
  let dest := dir ++ "/" ++ name
  if dest ∈ fs then
    (find_free fs dir (pathStem name) (pathSuffix name) (fs.length + 1) 1, true)
  else (dest, false)

/-! ### Per-file routing (`organize_photos`, photosorter.py lines 134–163)

The decision computed for one file against a snapshot: skip unsupported
formats, resolve the date, build the dated folder, resolve collisions.
Printing, statistics and the actual move/copy are outside the decision;
the directory-creation side effect is covered by `create_date_path`
above and cannot collide with the probed file paths. -/

/-- `is_supported_format` (photosorter.py lines 90–95). -/
def is_supported_format (p : String) : Bool :=
  [".jpg", ".jpeg", ".raf", ".JPG", ".JPEG", ".RAF"].contains (pathSuffix p)

/-- The routing decision for one file: `none` when the file is skipped as
unsupported, otherwise the resolved destination and collision flag. -/
def organize_step (fs : List String) (dest_root : String) (f : PhotoFile) :
    Option (String × Bool) :=
  if is_supported_format f.name then
    let pd := get_photo_date f
    let date_folder := date_path dest_root pd.1
    some (resolve_collision fs date_folder f.name)
  else none

/-! ### String replacer (`string_replacer.py`)

One file is abstracted at the boundaries of the external collaborators:
`mime_type` is what `mimetypes.guess_type` returns, `chunk` is the first
512 bytes read in binary mode (`none` when opening or reading raises),
and `content` is the full file read as UTF-8 text (`none` when that read
raises, e.g. on undecodable bytes). -/

structure TextFile where
  mime_type : Option String
  chunk : Option (List Nat)
  content : Option String
deriving DecidableEq

/-- A UTF-8 continuation byte. -/
def utf8Cont (b : Nat) : Bool := 0x80 ≤ b && b ≤ 0xBF

/-- Strict UTF-8 validity of a byte sequence, as checked by Python's
`bytes.decode('utf-8')` (an external collaborator): RFC 3629 sequences,
rejecting overlong encodings, surrogates and code points above U+10FFFF. -/
def utf8Valid : List Nat → Bool
  | [] => true
  | b :: rest =>
    if b ≤ 0x7F then utf8Valid rest
    else if 0xC2 ≤ b && b ≤ 0xDF then
      match rest with
      | b2 :: r => utf8Cont b2 && utf8Valid r
      | [] => false
    else if b = 0xE0 then
      match rest with
      | b2 :: b3 :: r => (0xA0 ≤ b2 && b2 ≤ 0xBF) && utf8Cont b3 && utf8Valid r
      | _ => false
    else if b = 0xED then
      match rest with
      | b2 :: b3 :: r => (0x80 ≤ b2 && b2 ≤ 0x9F) && utf8Cont b3 && utf8Valid r
      | _ => false
    else if 0xE1 ≤ b && b ≤ 0xEF then
      match rest with
      | b2 :: b3 :: r => utf8Cont b2 && utf8Cont b3 && utf8Valid r
      | _ => false
    else if b = 0xF0 then
      match rest with
      | b2 :: b3 :: b4 :: r =>
        (0x90 ≤ b2 && b2 ≤ 0xBF) && utf8Cont b3 && utf8Cont b4 && utf8Valid r
      | _ => false
    else if 0xF1 ≤ b && b ≤ 0xF3 then
      match rest with
      | b2 :: b3 :: b4 :: r => utf8Cont b2 && utf8Cont b3 && utf8Cont b4 && utf8Valid r
      | _ => false
    else if b = 0xF4 then
      match rest with
      | b2 :: b3 :: b4 :: r =>
        (0x80 ≤ b2 && b2 ≤ 0x8F) && utf8Cont b3 && utf8Cont b4 && utf8Valid r
      | _ => false
    else false

/-- The mimetypes explicitly accepted by `is_text_file`
(string_replacer.py lines 21–28). -/
def textMimes : List String :=
  ["application/json", "application/xml", "application/javascript",
   "application/x-yaml", "application/x-sh", "application/x-python-code"]

/-- `is_text_file` (string_replacer.py lines 17–44): trust the guessed
mimetype when there is one; otherwise sniff the first 512 bytes, rejecting
on a NUL byte or undecodable UTF-8, and on any read error. -/
def is_text_file (f : TextFile) : Bool :=
  match f.mime_type with
  | some m => m.startsWith "text/" || textMimes.contains m
  | none =>
    match f.chunk with
    | none => false
    | some bytes =>
      if bytes.contains 0 then false else utf8Valid bytes

/-- Python's substring test `pat in hay` (true at the empty pattern). -/
def str_contains_sub (hay pat : List Char) : Bool :=
  match hay with
  | [] => pat.isEmpty
  | _ :: t => pat.isPrefixOf hay || str_contains_sub t pat

/-- Left-to-right non-overlapping replacement of a non-empty pattern,
as performed by Python's `str.replace`. -/
def replace_list (pat rep : List Char) : List Char → List Char
  | [] => []
  | c :: rest =>
    if h : pat ≠ [] ∧ pat.isPrefixOf (c :: rest) then
      rep ++ replace_list pat rep (List.drop pat.length (c :: rest))
    else c :: replace_list pat rep rest
  termination_by l => l.length
  decreasing_by
    · have hp : 1 ≤ pat.length := by
        cases pat with
        | nil => exact absurd rfl h.1
        | cons a as => simp
      simp only [List.length_drop, List.length_cons]
      omega
    · simp

/-- Python `s.replace(pat, rep)`, including the empty-pattern behaviour
(`"abc".replace("", "X") = "XaXbXcX"`). -/
def str_replace (s pat rep : String) : String :=
  if pat.data = [] then
    (rep.data ++ s.data.foldr (fun c acc => c :: (rep.data ++ acc)) []).asString
  else (replace_list pat.data rep.data s.data).asString

/-- `replace_in_file_content` (string_replacer.py lines 47–70), returning
the success flag together with the file state after the call.  A read
failure is caught, reported, and falls through to `return False`. -/
def replace_in_file_content (f : TextFile) (search_str replace_str : String) :
    Bool × TextFile :=
  if is_text_file f then
    match f.content with
    | none => (false, f)
    | some content =>
      if str_contains_sub content.data search_str.data then
        (true, { f with content := some (str_replace content search_str replace_str) })
      else (false, f)
  else (false, f)

/-- A destination directory snapshot in which `photo.jpg` and the first
10,000 collision probes are all occupied. -/
def crowded_snapshot : List String :=
  "d/photo.jpg" :: (List.range 10000).map (fun i => probe_path "d" "photo" ".jpg" (i + 1))

/-! ## Helper lemmas -/

theorem string_data_ext {a b : String} (h : a.data = b.data) : a = b :=
  String.toList_inj.mp h

theorem string_empty_append (s : String) : "" ++ s = s :=
  string_data_ext (by simp)

/-- Distinct counter values give distinct probed paths: decimal rendering
is injective and string append cancels. -/
theorem probe_path_injective (dir stem ext : String) :
    Function.Injective (probe_path dir stem ext) := by
  intro c₁ c₂ h
  apply repr_injective
  have hd := congrArg String.data h
  simp only [probe_path, String.data_append, List.append_assoc,
    List.append_cancel_left_eq, List.append_cancel_right_eq] at hd
  exact string_data_ext hd ▸ rfl

/-- `find_free` returns the probe at the least free counter, whenever the
fuel covers the distance to it. -/
theorem find_free_spec (fs : List String) (dir stem ext : String) :
    ∀ (fuel c k : Nat), c ≤ k → k - c < fuel →
      probe_path dir stem ext k ∉ fs →
      (∀ j, c ≤ j → j < k → probe_path dir stem ext j ∈ fs) →
      find_free fs dir stem ext fuel c = probe_path dir stem ext k := by
  intro fuel
  induction fuel with
  | zero => intro c k _ h2 _ _; omega
  | succ fuel ih =>
    intro c k hck hfuel hfree hocc
    rw [find_free]
    by_cases hc : probe_path dir stem ext c ∈ fs
    · rw [if_pos hc]
      have hne : c ≠ k := fun he => hfree (he ▸ hc)
      exact ih (c + 1) k (by omega) (by omega) hfree
        (fun j hj1 hj2 => hocc j (by omega) hj2)
    · rw [if_neg hc]
      have hek : c = k := by
        by_contra hne
        exact hc (hocc c le_rfl (by omega))
      rw [hek]

/-- If the probes at counters `1, …, k-1` are all occupied, the snapshot
has at least `k - 1` entries (the probes are pairwise distinct). -/
theorem occupied_le_length (fs : List String) (dir stem ext : String) (k : Nat)
    (hocc : ∀ j, 1 ≤ j → j < k → probe_path dir stem ext j ∈ fs) :
    k - 1 ≤ fs.length := by
  classical
  have hinj : Function.Injective (fun i : Nat => probe_path dir stem ext (i + 1)) := by
    intro a b hab
    have := probe_path_injective dir stem ext hab
    omega
  have hsub : (Finset.range (k - 1)).image (fun i => probe_path dir stem ext (i + 1)) ⊆
      fs.toFinset := by
    intro x hx
    rcases Finset.mem_image.mp hx with ⟨i, hi, rfl⟩
    have hi' := Finset.mem_range.mp hi
    exact List.mem_toFinset.mpr (hocc (i + 1) (by omega) (by omega))
  have hcard := Finset.card_le_card hsub
  rw [Finset.card_image_of_injective _ hinj, Finset.card_range] at hcard
  exact le_trans hcard (List.toFinset_card_le fs)

/-- Some counter in `1, …, fs.length + 1` probes an unoccupied path. -/
theorem exists_free_probe (fs : List String) (dir stem ext : String) :
    ∃ k, 1 ≤ k ∧ k ≤ fs.length + 1 ∧ probe_path dir stem ext k ∉ fs := by
  by_contra h
  push_neg at h
  have := occupied_le_length fs dir stem ext (fs.length + 2)
    (fun j hj1 hj2 => h j hj1 (by omega))
  omega

/-- When the requested name is occupied, `resolve_collision` returns the
probe at the least free counter, flagged as a rename. -/
theorem resolve_collision_occupied (fs : List String) (dir name : String) (k : Nat)
    (h0 : (dir ++ "/" ++ name) ∈ fs) (hk : 1 ≤ k)
    (hfree : probe_path dir (pathStem name) (pathSuffix name) k ∉ fs)
    (hocc : ∀ j, 1 ≤ j → j < k →
      probe_path dir (pathStem name) (pathSuffix name) j ∈ fs) :
    resolve_collision fs dir name =
      (probe_path dir (pathStem name) (pathSuffix name) k, true) := by
  have hbound := occupied_le_length fs dir (pathStem name) (pathSuffix name) k hocc
  simp only [resolve_collision, if_pos h0]
  rw [find_free_spec fs dir (pathStem name) (pathSuffix name)
    (fs.length + 1) 1 k hk (by omega) hfree (fun j hj1 hj2 => hocc j hj1 hj2)]

/-- The decision depends on the snapshot only through path membership. -/
theorem resolve_collision_congr (fs₁ fs₂ : List String) (dir name : String)
    (h : ∀ p, p ∈ fs₁ ↔ p ∈ fs₂) :
    resolve_collision fs₁ dir name = resolve_collision fs₂ dir name := by
  classical
  by_cases h0 : (dir ++ "/" ++ name) ∈ fs₁
  · have h0' : (dir ++ "/" ++ name) ∈ fs₂ := (h _).mp h0
    have hex : ∃ k, 1 ≤ k ∧ probe_path dir (pathStem name) (pathSuffix name) k ∉ fs₁ := by
      rcases exists_free_probe fs₁ dir (pathStem name) (pathSuffix name) with ⟨k, hk1, _, hk3⟩
      exact ⟨k, hk1, hk3⟩
    let k := Nat.find hex
    have hkspec := Nat.find_spec hex
    have hocc : ∀ j, 1 ≤ j → j < k →
        probe_path dir (pathStem name) (pathSuffix name) j ∈ fs₁ := by
      intro j hj1 hj2
      by_contra hcon
      exact Nat.find_min hex hj2 ⟨hj1, hcon⟩
    rw [resolve_collision_occupied fs₁ dir name k h0 hkspec.1 hkspec.2 hocc,
      resolve_collision_occupied fs₂ dir name k h0' hkspec.1
        (fun hc => hkspec.2 ((h _).mpr hc))
        (fun j hj1 hj2 => (h _).mp (hocc j hj1 hj2))]
  · have h0' : (dir ++ "/" ++ name) ∉ fs₂ := fun hc => h0 ((h _).mpr hc)
    simp only [resolve_collision, if_neg h0, if_neg h0']

theorem mkdir_one_ok {st st2 : FS} {p : String} (h : mkdir_one st p = Except.ok st2) :
    st2.files = st.files ∧ p ∈ st2.dirs ∧ ∀ q ∈ st.dirs, q ∈ st2.dirs := by
  unfold mkdir_one at h
  by_cases hf : p ∈ st.files
  · rw [if_pos hf] at h; cases h
  · rw [if_neg hf] at h
    by_cases hd : p ∈ st.dirs
    · rw [if_pos hd] at h
      cases h
      exact ⟨rfl, hd, fun q hq => hq⟩
    · rw [if_neg hd] at h
      cases h
      exact ⟨rfl, List.mem_cons_self _ _, fun q hq => List.mem_cons_of_mem _ hq⟩

theorem mkdir_parents_ok :
    ∀ (chain : List String) (st st2 : FS), mkdir_parents st chain = Except.ok st2 →
      st2.files = st.files ∧ (∀ q ∈ chain, q ∈ st2.dirs) ∧
        ∀ q ∈ st.dirs, q ∈ st2.dirs := by
  intro chain
  induction chain with
  | nil =>
    intro st st2 h
    cases h
    exact ⟨rfl, by simp, fun q hq => hq⟩
  | cons p rest ih =>
    intro st st2 h
    unfold mkdir_parents at h
    cases hone : mkdir_one st p with
    | error e => rw [hone] at h; cases h
    | ok st1 =>
      rw [hone] at h
      rcases mkdir_one_ok hone with ⟨hfiles1, hp1, hmono1⟩
      rcases ih st1 st2 h with ⟨hfiles2, hmem2, hmono2⟩
      refine ⟨hfiles2.trans hfiles1, ?_, fun q hq => hmono2 q (hmono1 q hq)⟩
      intro q hq
      rcases List.mem_cons.mp hq with rfl | hq'
      · exact hmono2 q hp1
      · exact hmem2 q hq'

theorem mkdir_parents_noop :
    ∀ (chain : List String) (st : FS),
      (∀ q ∈ chain, q ∈ st.dirs ∧ q ∉ st.files) →
      mkdir_parents st chain = Except.ok st := by
  intro chain
  induction chain with
  | nil => intro st _; rfl
  | cons p rest ih =>
    intro st h
    have hp := h p (List.mem_cons_self _ _)
    unfold mkdir_parents mkdir_one
    rw [if_neg hp.2, if_pos hp.1]
    exact ih st (fun q hq => h q (List.mem_cons_of_mem _ hq))

theorem mkdir_parents_error_iff :
    ∀ (chain : List String) (st : FS),
      (∃ e, mkdir_parents st chain = Except.error e) ↔ ∃ q ∈ chain, q ∈ st.files := by
  intro chain
  induction chain with
  | nil =>
    intro st
    constructor
    · rintro ⟨e, he⟩; cases he
    · rintro ⟨q, hq, _⟩; cases hq
  | cons p rest ih =>
    intro st
    by_cases hf : p ∈ st.files
    · constructor
      · intro _; exact ⟨p, List.mem_cons_self _ _, hf⟩
      · intro _
        refine ⟨p, ?_⟩
        unfold mkdir_parents mkdir_one
        rw [if_pos hf]
    · have hone : ∃ st1, mkdir_one st p = Except.ok st1 ∧ st1.files = st.files := by
        unfold mkdir_one
        rw [if_neg hf]
        by_cases hd : p ∈ st.dirs
        · exact ⟨st, by rw [if_pos hd], rfl⟩
        · exact ⟨{ st with dirs := p :: st.dirs }, by rw [if_neg hd], rfl⟩
      rcases hone with ⟨st1, hone, hfiles⟩
      constructor
      · rintro ⟨e, he⟩
        unfold mkdir_parents at he
        rw [hone] at he
        rcases (ih st1).mp ⟨e, he⟩ with ⟨q, hq, hqf⟩
        exact ⟨q, List.mem_cons_of_mem _ hq, hfiles ▸ hqf⟩
      · rintro ⟨q, hq, hqf⟩
        rcases List.mem_cons.mp hq with rfl | hq'
        · exact absurd hqf hf
        · rcases (ih st1).mpr ⟨q, hq', hfiles.symm ▸ hqf⟩ with ⟨e, he⟩
          refine ⟨e, ?_⟩
          unfold mkdir_parents
          rw [hone]
          exact he

theorem decDigits_length_pos (n : Nat) : 1 ≤ (decDigits n).length := by
  by_cases h : n < 10
  · rw [decDigits, dif_pos h]; simp
  · rw [decDigits, dif_neg h]; simp

theorem repr_length_eq (n : Nat) : (Nat.repr n).length = (decDigits n).length := by
  rw [repr_eq_decDigits]
  exact List.length_asString _

theorem repr_length_one {n : Nat} (h : n < 10) : (Nat.repr n).length = 1 := by
  rw [repr_length_eq, decDigits, dif_pos h]
  rfl

theorem repr_length_two_le {n : Nat} (h : 10 ≤ n) : 2 ≤ (Nat.repr n).length := by
  rw [repr_length_eq, decDigits, dif_neg (by omega : ¬ n < 10)]
  have := decDigits_length_pos (n / 10)
  simp only [List.length_append, List.length_singleton]
  omega

theorem repr_length_four {n : Nat} (h1 : 1000 ≤ n) (h2 : n ≤ 9999) :
    (Nat.repr n).length = 4 := by
  rw [repr_length_eq]
  rw [decDigits, dif_neg (by omega : ¬ n < 10)]
  rw [decDigits, dif_neg (by omega : ¬ n / 10 < 10)]
  rw [decDigits, dif_neg (by omega : ¬ n / 10 / 10 < 10)]
  rw [decDigits, dif_pos (by omega : n / 10 / 10 / 10 < 10)]
  simp

/-- glibc `%m`/`%d` padding agrees with the spec's "zero-padded two-digit"
reading at every value. -/
theorem zeroPad2_eq_leftPad (n : Nat) : zeroPad2 n = leftPad 2 '0' (Nat.repr n) := by
  unfold zeroPad2 leftPad
  by_cases h : n < 10
  · rw [if_pos h, repr_length_one h]
    rfl
  · rw [if_neg h]
    have h2 := repr_length_two_le (by omega : 10 ≤ n)
    have hz : 2 - (Nat.repr n).length = 0 := by omega
    rw [hz]
    exact (string_empty_append _).symm

/-! ## Claims -/

/-- Claim C1: if `destinationDir/fileName` is absent from the snapshot,
collision resolution returns it unchanged with `created = false`;
otherwise it probes `stem_1.ext`, `stem_2.ext`, … in increasing order from
1 and returns the first absent name with `created = true`. -/
theorem collision_resolution_first_free (fs : List String) (dir name : String) :
    ((dir ++ "/" ++ name) ∉ fs →
      resolve_collision fs dir name = (dir ++ "/" ++ name, false)) ∧
    ∀ k, (dir ++ "/" ++ name) ∈ fs → 1 ≤ k →
      probe_path dir (pathStem name) (pathSuffix name) k ∉ fs →
      (∀ j, 1 ≤ j → j < k →
        probe_path dir (pathStem name) (pathSuffix name) j ∈ fs) →
      resolve_collision fs dir name =
        (probe_path dir (pathStem name) (pathSuffix name) k, true) := by
  constructor
  · intro h
    simp only [resolve_collision, if_neg h]
  · intro k h0 hk hfree hocc
    exact resolve_collision_occupied fs dir name k h0 hk hfree hocc

theorem collision_resolution_first_free_witness :
    resolve_collision ["root/2024/03/07/photo.jpg"] "root/2024/03/07" "photo.jpg" =
      ("root/2024/03/07/photo_1.jpg", true) ∧
    resolve_collision ["root/2024/03/07/photo.jpg", "root/2024/03/07/photo_1.jpg"]
        "root/2024/03/07" "photo.jpg" =
      ("root/2024/03/07/photo_2.jpg", true) ∧
    resolve_collision [] "root/2024/03/07" "photo.jpg" =
      ("root/2024/03/07/photo.jpg", false) :=
  ⟨(collision_resolution_first_free ["root/2024/03/07/photo.jpg"]
      "root/2024/03/07" "photo.jpg").2 1 (by decide) (by decide) (by decide)
      (fun j hj1 hj2 => by omega),
   (collision_resolution_first_free
      ["root/2024/03/07/photo.jpg", "root/2024/03/07/photo_1.jpg"]
      "root/2024/03/07" "photo.jpg").2 2 (by decide) (by decide) (by decide)
      (fun j hj1 hj2 => by
        have hj : j = 1 := by omega
        subst hj
        decide),
   (collision_resolution_first_free [] "root/2024/03/07" "photo.jpg").1 (by decide)⟩

/-- Claim C2: whenever the metadata pipeline yields a parseable date, the
resolved date is exactly that date tagged `EXIF`, independently of the
file's modification time. -/
theorem exif_date_wins (f : PhotoFile) (d : DateTime)
    (h : get_exif_date f = some d) :
    get_photo_date f = (d, "EXIF") ∧
    ∀ t : DateTime, get_photo_date { f with mtime := t } = (d, "EXIF") := by
  constructor
  · unfold get_photo_date
    rw [h]
  · intro t
    have h2 : get_exif_date { f with mtime := t } = some d := h
    unfold get_photo_date
    rw [h2]

theorem exif_date_wins_witness :
    get_photo_date ⟨"IMG_01.JPG", some [("DateTimeOriginal", "2023:11:05 08:30:00")],
        none, ⟨1970, 1, 1, 0, 0, 0⟩⟩ = (⟨2023, 11, 5, 8, 30, 0⟩, "EXIF") ∧
    get_photo_date ⟨"IMG_01.JPG", some [("DateTimeOriginal", "2023:11:05 08:30:00")],
        none, ⟨1999, 12, 31, 23, 59, 59⟩⟩ = (⟨2023, 11, 5, 8, 30, 0⟩, "EXIF") :=
  ⟨(exif_date_wins ⟨"IMG_01.JPG", some [("DateTimeOriginal", "2023:11:05 08:30:00")],
      none, ⟨1970, 1, 1, 0, 0, 0⟩⟩ ⟨2023, 11, 5, 8, 30, 0⟩ rfl).1,
   (exif_date_wins ⟨"IMG_01.JPG", some [("DateTimeOriginal", "2023:11:05 08:30:00")],
      none, ⟨1970, 1, 1, 0, 0, 0⟩⟩ ⟨2023, 11, 5, 8, 30, 0⟩ rfl).2
      ⟨1999, 12, 31, 23, 59, 59⟩⟩

/-- Claim C3: when the metadata is absent or unparseable, no error
propagates and the resolved date is the modification time tagged
`File Modified`. -/
theorem fallback_to_file_date (f : PhotoFile)
    (h : get_exif_date f = none) :
    get_photo_date f = (f.mtime, "File Modified") := by
  unfold get_photo_date
  rw [h]
  rfl

theorem fallback_to_file_date_witness :
    get_photo_date ⟨"a.jpg", some [("DateTimeOriginal", "not a date")],
        some [("Image Make", "X")], ⟨2001, 2, 3, 4, 5, 6⟩⟩ =
      (⟨2001, 2, 3, 4, 5, 6⟩, "File Modified") :=
  fallback_to_file_date _ rfl

/-- Claim C4 counterexample: a file whose PIL metadata lists a parseable
`DateTime` entry before a parseable `DateTimeOriginal` entry resolves to
the `DateTime` value, so the capture-time field does not always win. -/
theorem capture_time_preference_counterexample :
    get_exif_date ⟨"a.jpg",
        some [("DateTime", "1999:01:02 03:04:05"),
              ("DateTimeOriginal", "2020:06:07 08:09:10")],
        none, ⟨1970, 1, 1, 0, 0, 0⟩⟩ = some ⟨1999, 1, 2, 3, 4, 5⟩ ∧
    parse_datetime "2020:06:07 08:09:10" = some ⟨2020, 6, 7, 8, 9, 10⟩ ∧
    (⟨1999, 1, 2, 3, 4, 5⟩ : DateTime) ≠ ⟨2020, 6, 7, 8, 9, 10⟩ :=
  ⟨rfl, rfl, by decide⟩

/-- Claim C4 as amended: the exifread branch does prefer the capture-time
key unconditionally, while the PIL branch returns whichever of the two
date tags comes first in metadata iteration order — so there the
capture-time field wins exactly when it appears no later than the generic
field. -/
theorem capture_time_preference_amended :
    (∀ (tags : List (String × String)) (v : String),
      lookupTag "EXIF DateTimeOriginal" tags = some v →
      exifread_scan tags = parse_datetime v) ∧
    (∀ (pre rest : List (String × String)) (v : String),
      (∀ kv ∈ pre, kv.1 ≠ "DateTimeOriginal" ∧ kv.1 ≠ "DateTime") →
      pil_scan (pre ++ ("DateTimeOriginal", v) :: rest) = parse_datetime v) := by
  constructor
  · intro tags v h
    unfold exifread_scan
    rw [h]
  · intro pre
    induction pre with
    | nil =>
      intro rest v _
      simp [pil_scan]
    | cons kv pre ih =>
      intro rest v h
      have hkv := h kv (List.mem_cons_self _ _)
      obtain ⟨tag, value⟩ := kv
      simp only [List.cons_append, pil_scan, if_neg hkv.1, if_neg hkv.2]
      exact ih rest v (fun kv hkv2 => h kv (List.mem_cons_of_mem _ hkv2))

theorem capture_time_preference_amended_witness :
    exifread_scan [("Image DateTime", "1999:01:02 03:04:05"),
        ("EXIF DateTimeOriginal", "2020:06:07 08:09:10")] =
      parse_datetime "2020:06:07 08:09:10" ∧
    pil_scan [("Make", "X"), ("DateTimeOriginal", "2020:06:07 08:09:10"),
        ("DateTime", "1999:01:02 03:04:05")] =
      parse_datetime "2020:06:07 08:09:10" :=
  ⟨capture_time_preference_amended.1 _ "2020:06:07 08:09:10" rfl,
   capture_time_preference_amended.2 [("Make", "X")]
      [("DateTime", "1999:01:02 03:04:05")] "2020:06:07 08:09:10" (by decide)⟩

/-- Claim C5 counterexample: with `photo.jpg` and the first 10,000 probe
names all occupied, the collision loop keeps probing past the claimed
10,000-probe bound and returns `photo_10001.jpg` as an ordinary decision;
no `CollisionBoundExceeded` failure exists in the code. -/
theorem collision_bound_counterexample :
    resolve_collision crowded_snapshot "d" "photo.jpg" =
      ("d/photo_10001.jpg", true) := by
  have h0 : ("d" ++ "/" ++ "photo.jpg") ∈ crowded_snapshot := by
    show "d/photo.jpg" ∈ crowded_snapshot
    exact List.mem_cons_self _ _
  have hfree : probe_path "d" "photo" ".jpg" 10001 ∉ crowded_snapshot := by
    intro hmem
    rcases List.mem_cons.mp hmem with heq | hmap
    · have hbad : ("d/photo_10001.jpg" : String) = "d/photo.jpg" := heq
      exact absurd hbad (by decide)
    · rcases List.mem_map.mp hmap with ⟨i, hi, hpi⟩
      have hinj := probe_path_injective "d" "photo" ".jpg" hpi
      have hi10 := List.mem_range.mp hi
      omega
  have hocc : ∀ j, 1 ≤ j → j < 10001 →
      probe_path "d" "photo" ".jpg" j ∈ crowded_snapshot := by
    intro j h1 h2
    apply List.mem_cons_of_mem
    apply List.mem_map.mpr
    exact ⟨j - 1, List.mem_range.mpr (by omega), by
      show probe_path "d" "photo" ".jpg" (j - 1 + 1) = probe_path "d" "photo" ".jpg" j
      congr 1
      omega⟩
  have hres := resolve_collision_occupied crowded_snapshot "d" "photo.jpg" 10001
    h0 (by omega) hfree hocc
  rw [hres]
  rfl

/-- Claim C5 as amended: the collision loop has no probe bound and raises
no error; on every finite snapshot it terminates (it is total) and its
decision always names an unoccupied destination — even when, as in
`collision_bound_counterexample`, that takes more than 10,000 probes. -/
theorem collision_returns_unoccupied (fs : List String) (dir name : String) :
    (resolve_collision fs dir name).1 ∉ fs := by
  classical
  by_cases h0 : (dir ++ "/" ++ name) ∈ fs
  · have hex : ∃ k, 1 ≤ k ∧
        probe_path dir (pathStem name) (pathSuffix name) k ∉ fs := by
      rcases exists_free_probe fs dir (pathStem name) (pathSuffix name) with
        ⟨k, hk1, _, hk3⟩
      exact ⟨k, hk1, hk3⟩
    have hkspec := Nat.find_spec hex
    have hocc : ∀ j, 1 ≤ j → j < Nat.find hex →
        probe_path dir (pathStem name) (pathSuffix name) j ∈ fs := by
      intro j hj1 hj2
      by_contra hcon
      exact Nat.find_min hex hj2 ⟨hj1, hcon⟩
    rw [resolve_collision_occupied fs dir name (Nat.find hex) h0 hkspec.1
      hkspec.2 hocc]
    exact hkspec.2
  · simp only [resolve_collision, if_neg h0]
    exact h0

/-- Claim C6: the routing decision for a file is a function of the
snapshot's membership only — routing twice against an unchanged snapshot
(or any snapshot with the same existing-path set) yields the identical
decision. -/
theorem routing_deterministic (fs₁ fs₂ : List String) (root : String)
    (f : PhotoFile) (h : ∀ p, p ∈ fs₁ ↔ p ∈ fs₂) :
    organize_step fs₁ root f = organize_step fs₂ root f := by
  unfold organize_step
  by_cases hs : is_supported_format f.name
  · rw [if_pos hs, if_pos hs]
    exact congrArg some (resolve_collision_congr fs₁ fs₂ _ _ h)
  · rw [if_neg hs, if_neg hs]

theorem routing_deterministic_witness :
    organize_step ["x"] "out"
        ⟨"IMG_01.JPG", some [("DateTimeOriginal", "2023:11:05 08:30:00")],
          none, ⟨1970, 1, 1, 0, 0, 0⟩⟩ =
      organize_step ["x", "x"] "out"
        ⟨"IMG_01.JPG", some [("DateTimeOriginal", "2023:11:05 08:30:00")],
          none, ⟨1970, 1, 1, 0, 0, 0⟩⟩ :=
  routing_deterministic ["x"] ["x", "x"] "out"
    ⟨"IMG_01.JPG", some [("DateTimeOriginal", "2023:11:05 08:30:00")],
      none, ⟨1970, 1, 1, 0, 0, 0⟩⟩ (fun p => by simp)

theorem leftPad_of_le {w : Nat} {s : String} (h : w ≤ s.length) (c : Char) :
    leftPad w c s = s := by
  unfold leftPad
  have hz : w - s.length = 0 := by omega
  rw [hz]
  exact string_empty_append s

/-- Claim C7: for a four-digit year the destination directory is
`root/YYYY/MM/DD` exactly as the spec words it, and in particular
2024-03-07 maps to `root/2024/03/07`. -/
theorem date_path_layout (root : String) (d : DateTime)
    (h1 : 1000 ≤ d.year) (h2 : d.year ≤ 9999) :
    date_path root d = spec_date_path root d ∧
    date_path root ⟨2024, 3, 7, 10, 0, 0⟩ = root ++ "/2024/03/07" := by
  constructor
  · unfold date_path spec_date_path strftimeY strftimeM strftimeD
    rw [zeroPad2_eq_leftPad, zeroPad2_eq_leftPad,
      leftPad_of_le (repr_length_four h1 h2).symm.le '0']
  · have hY : strftimeY ⟨2024, 3, 7, 10, 0, 0⟩ = "2024" := rfl
    have hM : strftimeM ⟨2024, 3, 7, 10, 0, 0⟩ = "03" := rfl
    have hD : strftimeD ⟨2024, 3, 7, 10, 0, 0⟩ = "07" := rfl
    unfold date_path
    rw [hY, hM, hD]
    apply string_data_ext
    simp only [String.data_append, List.append_assoc, List.append_cancel_left_eq]
    rfl

theorem date_path_layout_witness :
    date_path "root" ⟨2024, 3, 7, 10, 0, 0⟩ =
      spec_date_path "root" ⟨2024, 3, 7, 10, 0, 0⟩ ∧
    date_path "root" ⟨2024, 3, 7, 10, 0, 0⟩ = "root" ++ "/2024/03/07" :=
  date_path_layout "root" ⟨2024, 3, 7, 10, 0, 0⟩ (by decide) (by decide)

/-- Claim C8: ensuring the dated directory chain is idempotent — a second
call on the state a successful call produced returns the same state with
no error — and an error occurs exactly when a non-directory occupies a
component of the chain, propagating to the caller. -/
theorem create_date_path_idempotent (st : FS) (base_dir : String) (d : DateTime) :
    (∀ st2 p, create_date_path st base_dir d = Except.ok (st2, p) →
      create_date_path st2 base_dir d = Except.ok (st2, p)) ∧
    ((∃ e, create_date_path st base_dir d = Except.error e) ↔
      ∃ q ∈ date_path_chain base_dir d, q ∈ st.files) := by
  constructor
  · intro st2 p h
    unfold create_date_path at h ⊢
    cases hmk : mkdir_parents st (date_path_chain base_dir d) with
    | error e => rw [hmk] at h; cases h
    | ok stm =>
      rw [hmk] at h
      injection h with h'
      injection h' with hst hp
      subst hst
      subst hp
      rcases mkdir_parents_ok _ _ _ hmk with ⟨hfiles, hmem, _⟩
      have hnoerr : ¬ ∃ q ∈ date_path_chain base_dir d, q ∈ st.files := by
        intro hq
        rcases (mkdir_parents_error_iff _ st).mpr hq with ⟨e, he⟩
        rw [hmk] at he
        cases he
      rw [mkdir_parents_noop _ _ (fun q hq =>
        ⟨hmem q hq, fun hc => hnoerr ⟨q, hq, hfiles ▸ hc⟩⟩)]
  · unfold create_date_path
    cases hmk : mkdir_parents st (date_path_chain base_dir d) with
    | error e =>
      constructor
      · intro _
        exact (mkdir_parents_error_iff _ st).mp ⟨e, hmk⟩
      · intro _
        exact ⟨e, rfl⟩
    | ok stm =>
      constructor
      · rintro ⟨e2, he⟩
        cases he
      · intro hq
        rcases (mkdir_parents_error_iff _ st).mpr hq with ⟨e, he⟩
        rw [hmk] at he
        cases he

theorem create_date_path_idempotent_witness :
    create_date_path ⟨["root/2024/03/07", "root/2024/03", "root/2024", "root"], []⟩
        "root" ⟨2024, 3, 7, 10, 0, 0⟩ =
      Except.ok (⟨["root/2024/03/07", "root/2024/03", "root/2024", "root"], []⟩,
        "root/2024/03/07") :=
  (create_date_path_idempotent ⟨[], []⟩ "root" ⟨2024, 3, 7, 10, 0, 0⟩).1
    ⟨["root/2024/03/07", "root/2024/03", "root/2024", "root"], []⟩
    "root/2024/03/07" rfl

/-- Claim C9: a file counts as a photo exactly when its pathlib suffix is
one of the six literal extensions; other casings such as `.Jpg` or `.jPG`
are unsupported, and unsupported files are skipped by the router. -/
theorem supported_format_exact (p : String) (fs : List String) (root : String)
    (f : PhotoFile) :
    (is_supported_format p = true ↔
      pathSuffix p ∈ ([".jpg", ".jpeg", ".raf", ".JPG", ".JPEG", ".RAF"] : List String)) ∧
    is_supported_format "photo.Jpg" = false ∧
    is_supported_format "photo.jPG" = false ∧
    (is_supported_format f.name = false → organize_step fs root f = none) := by
  refine ⟨?_, by decide, by decide, ?_⟩
  · simp [is_supported_format, List.contains]
  · intro h
    simp [organize_step, h]

theorem supported_format_exact_witness :
    organize_step [] "out" ⟨"photo.Jpg", none, none, ⟨1970, 1, 1, 0, 0, 0⟩⟩ = none :=
  (supported_format_exact "x" [] "out"
    ⟨"photo.Jpg", none, none, ⟨1970, 1, 1, 0, 0, 0⟩⟩).2.2.2 (by decide)

/-- Claim C10: when a file is not detected as text, or its content does
not contain the search string, the replacer reports `false` and the file
is left completely unchanged. -/
theorem replace_frame_condition (f : TextFile) (search_str replace_str : String)
    (h : is_text_file f = false ∨
      ∀ c, f.content = some c → str_contains_sub c.data search_str.data = false) :
    replace_in_file_content f search_str replace_str = (false, f) := by
  unfold replace_in_file_content
  rcases h with h | h
  · rw [h]
    simp
  · by_cases ht : is_text_file f
    · rw [if_pos ht]
      cases hc : f.content with
      | none => rfl
      | some c => simp [h c hc]
    · rw [if_neg ht]

theorem replace_frame_condition_witness :
    replace_in_file_content ⟨some "text/plain", none, some "hello world"⟩ "xyz" "Z" =
      (false, ⟨some "text/plain", none, some "hello world"⟩) :=
  replace_frame_condition ⟨some "text/plain", none, some "hello world"⟩ "xyz" "Z"
    (Or.inr (fun c hc => by
      injection hc with hc2
      subst hc2
      decide))
